import Mathlib

/-
Verification of the yield-farming web3 client (src/sample-example-web3.rs).

The Rust file is glue code over the external web3/ethabi crates.  The
embedding below models the client faithfully: every network interaction is
made explicit by (a) passing the RPC response of the single underlying call
as an argument (`resp`), and (b) returning, next to the result, the trace of
RPC requests the call issued.  The external library layer (URL validation,
ABI parsing, contract function lookup, output decoding) is modelled at the
granularity the client exercises: ABI entries are function names, decoded
outputs are token lists.
-/

namespace Web3Yield

/-- 20-byte (160-bit) account address, as web3's `Address` (`H160`). -/
abbrev Address := Fin (2 ^ 160)

/-- 32-byte (256-bit) transaction hash, as web3's `H256`. -/
abbrev H256 := Fin (2 ^ 256)

/-- 256-bit unsigned integer, as web3's `U256`: values are bounded by `2 ^ 256`. -/
abbrev U256 := Fin (2 ^ 256)

/-- A transport-level RPC failure, carrying its message. -/
structure RpcError where
  msg : String
  deriving Repr, DecidableEq

/-- Error kinds of the spec's taxonomy for the boxed errors the Rust client
returns: configuration (construction), invocation (state-mutating call),
query (read-only call), lookup (receipt/block fetch). -/
inductive ClientError where
  | configurationError (msg : String)
  | invocationError (msg : String)
  | queryError (msg : String)
  | lookupError (msg : String)
  deriving Repr, DecidableEq

/-- An ABI value passed to or decoded out of a contract call (ethabi `Token`),
restricted to the kinds this client uses. -/
inductive Token where
  | uint (v : U256)
  | address (a : Address)
  deriving Repr, DecidableEq

/-- A parsed contract ABI (ethabi `Contract`), modelled as the list of its
callable function names. -/
structure ContractABI where
  functions : List String
  deriving Repr, DecidableEq

/-- Splits a character list at every comma (the separators between serialized
ABI entries). -/
def splitComma : List Char → List (List Char)
  | [] => [[]]
  | c :: cs =>
      let rest := splitComma cs
      if c = ',' then [] :: rest
      else
        match rest with
        | [] => [[c]]
        | p :: ps => (c :: p) :: ps

/-- Parses one serialized ABI entry: a double-quoted nonempty function name. -/
def parseAbiEntry (cs : List Char) : Option String :=
  match cs with
  | '"' :: rest =>
      match rest.reverse with
      | '"' :: revName =>
          let name := revName.reverse
          if !name.isEmpty && name.all (fun c => !(c = '"' || c = ',')) then
            some (String.mk name)
          else none
      | _ => none
  | _ => none

/-- Parses each piece of a comma-separated entry list, failing if any piece is
malformed. -/
def collectEntries : List (List Char) → Option (List String)
  | [] => some []
  | p :: ps =>
      match parseAbiEntry p, collectEntries ps with
      | some n, some ns => some (n :: ns)
      | _, _ => none

/-- Parses serialized ABI bytes: a bracketed, comma-separated list of quoted
function names (the JSON-array ABI format at the granularity of names).
`[]` is the empty interface. -/
def parseAbiChars (cs : List Char) : Option (List String) :=
  match cs with
  | '[' :: rest =>
      match rest.reverse with
      | ']' :: revInner =>
          let inner := revInner.reverse
          if inner.isEmpty then some []
          else collectEntries (splitComma inner)
      | _ => none
  | _ => none

/-- Model of ethabi `Contract::load`: parse serialized ABI bytes into a
contract interface, or fail on malformed input. -/
def ContractABI.load (bytes : String) : Except String ContractABI :=
  match parseAbiChars bytes.toList with
  | some fns => Except.ok { functions := fns }
  | none => Except.error "invalid ABI"

/-- Boolean check that the character list `s` starts with the pattern `pat`. -/
def listStartsWith : List Char → List Char → Bool
  | [], _ => true
  | _ :: _, [] => false
  | a :: pat, b :: s => a = b && listStartsWith pat s

/-- An HTTP JSON-RPC transport handle (web3 `transports::Http`), holding its
endpoint URL. -/
structure Http where
  url : String
  deriving Repr, DecidableEq

/-- URL-format validation done by `Http::new`: the endpoint must be an
http/https URL.  No network I/O is involved. -/
def Http.validUrl (url : String) : Bool :=
  listStartsWith "http://".toList url.toList || listStartsWith "https://".toList url.toList

/-- Model of web3 `transports::Http::new`: validate the endpoint URL format
and build the transport; performs no network call. -/
def Http.new (url : String) : Except String Http :=
  if Http.validUrl url then Except.ok { url := url } else Except.error "invalid RPC url"

/-- The `eth` API namespace handle (web3 `api::Eth`), a view of the transport. -/
structure Eth where
  transport : Http
  deriving Repr, DecidableEq

/-- The top-level web3 handle, wrapping the transport. -/
structure Web3 where
  transport : Http
  deriving Repr, DecidableEq

/-- Model of `Web3::new`. -/
def Web3.new (t : Http) : Web3 := { transport := t }

/-- Model of `web3.eth()`. -/
def Web3.eth (w : Web3) : Eth := { transport := w.transport }

/-- The RPC requests the client can issue; each call's returned trace lists
the requests it sent over the transport. -/
inductive RpcRequest where
  | submitTx (contractAddr : Address) (fn : String) (args : List Token) (sender : Address)
  | ethCall (contractAddr : Address) (fn : String) (args : List Token) (blockId : Option Nat)
  | getReceipt (txHash : H256)
  | getBlock
  deriving Repr, DecidableEq

/-- Transaction options (web3 `contract::Options`); the client only ever uses
the default. -/
inductive Options where
  | default
  deriving Repr, DecidableEq

/-- An ABI-bound deployed-contract handle (web3 `contract::Contract`). -/
structure Contract where
  eth : Eth
  address : Address
  abi : ContractABI
  deriving Repr, DecidableEq

/-- Model of `Contract::new(eth, address, abi)`. -/
def Contract.new (e : Eth) (addr : Address) (abi : ContractABI) : Contract :=
  { eth := e, address := addr, abi := abi }

/-- Model of web3 `Contract::call`: look the function up in the ABI (failing
without any network request if absent, as ethabi does), then submit one
transaction invoking it as `sender` and return the hash the node accepted, or
surface the node's rejection unchanged. -/
def Contract.call (c : Contract) (fn : String) (args : List Token) (_opts : Options)
    (sender : Address) (resp : Except RpcError H256) :
    List RpcRequest × Except ClientError H256 :=
  if c.abi.functions.contains fn then
    ([RpcRequest.submitTx c.address fn args sender],
      match resp with
      | Except.ok h => Except.ok h
      | Except.error e => Except.error (ClientError.invocationError e.msg))
  else
    ([], Except.error (ClientError.invocationError ("function " ++ fn ++ " not found in ABI")))

/-- Decoding of a contract call's output token list at the expected type
`U256` (web3 `Detokenize` for `U256`): exactly one uint token. -/
def detokenizeU256 (toks : List Token) : Option U256 :=
  match toks with
  | [Token.uint v] => some v
  | _ => none

/-- Model of web3 `Contract::query`: look the function up in the ABI (failing
without any network request if absent), perform one read-only `eth_call`
(no transaction is submitted), and decode the returned tokens at `U256`,
failing on RPC failure or decode mismatch. -/
def Contract.query (c : Contract) (fn : String) (args : List Token)
    (_sender : Option Address) (_opts : Options) (blockId : Option Nat)
    (resp : Except RpcError (List Token)) :
    List RpcRequest × Except ClientError U256 :=
  if c.abi.functions.contains fn then
    ([RpcRequest.ethCall c.address fn args blockId],
      match resp with
      | Except.error e => Except.error (ClientError.queryError e.msg)
      | Except.ok toks =>
          match detokenizeU256 toks with
          | some v => Except.ok v
          | none => Except.error (ClientError.queryError "decode mismatch"))
  else
    ([], Except.error (ClientError.queryError ("function " ++ fn ++ " not found in ABI")))

/-- A mined transaction's receipt (web3 `TransactionReceipt`), at the
granularity the client reads. -/
structure TransactionReceipt where
  txHash : H256
  status : Option Nat
  blockNumber : Option Nat
  deriving Repr, DecidableEq

/-- A block header as returned for a latest-block query; `number` is absent
for pending blocks (web3 `Block` has `number : Option<U64>`). -/
structure Block where
  number : Option Nat
  deriving Repr, DecidableEq

/-- Model of `eth().transaction_receipt(hash)`: one getReceipt request; the
node's answer (receipt, absence, or transport failure) is passed through. -/
def Eth.transaction_receipt (_e : Eth) (txHash : H256)
    (resp : Except RpcError (Option TransactionReceipt)) :
    List RpcRequest × Except RpcError (Option TransactionReceipt) :=
  ([RpcRequest.getReceipt txHash], resp)

/-- Model of `eth().block(BlockNumber::Latest)`: one getBlock request; the
node's answer is passed through. -/
def Eth.block_latest (_e : Eth) (resp : Except RpcError (Option Block)) :
    List RpcRequest × Except RpcError (Option Block) :=
  ([RpcRequest.getBlock], resp)

/-- The client of src/sample-example-web3.rs: a web3 handle and a bound
contract. -/
structure YieldFarmingClient where
  web3 : Web3
  contract : Contract
  deriving Repr, DecidableEq

/-- `YieldFarmingClient::new`: build the transport (URL validation only),
parse the ABI, bind the contract.  Both failure paths are configuration
errors; no RPC request is ever issued. -/
def YieldFarmingClient.new (rpc_url : String) (contract_address : Address)
    (contract_abi : String) :
    List RpcRequest × Except ClientError YieldFarmingClient :=
  match Http.new rpc_url with
  | Except.error e => ([], Except.error (ClientError.configurationError e))
  | Except.ok transport =>
      let web3 := Web3.new transport
      match ContractABI.load contract_abi with
      | Except.error e => ([], Except.error (ClientError.configurationError e))
      | Except.ok abi =>
          ([], Except.ok
            { web3 := web3, contract := Contract.new (Web3.eth web3) contract_address abi })

/-- `deposit(amount, account)`: submit `deposit(amount)` as `account`. -/
def YieldFarmingClient.deposit (self : YieldFarmingClient) (amount : U256)
    (account : Address) (resp : Except RpcError H256) :
    List RpcRequest × Except ClientError H256 :=
  self.contract.call "deposit" [Token.uint amount] Options.default account resp

/-- `withdraw(amount, account)`: submit `withdraw(amount)` as `account`. -/
def YieldFarmingClient.withdraw (self : YieldFarmingClient) (amount : U256)
    (account : Address) (resp : Except RpcError H256) :
    List RpcRequest × Except ClientError H256 :=
  self.contract.call "withdraw" [Token.uint amount] Options.default account resp

/-- `claim_rewards(account)`: submit `claimRewards()` as `account`. -/
def YieldFarmingClient.claim_rewards (self : YieldFarmingClient) (account : Address)
    (resp : Except RpcError H256) :
    List RpcRequest × Except ClientError H256 :=
  self.contract.call "claimRewards" [] Options.default account resp

/-- `get_staked_balance(account)`: read-only query of `balanceOf(account)`. -/
def YieldFarmingClient.get_staked_balance (self : YieldFarmingClient) (account : Address)
    (resp : Except RpcError (List Token)) :
    List RpcRequest × Except ClientError U256 :=
  self.contract.query "balanceOf" [Token.address account] none Options.default none resp

/-- `get_pending_rewards(account)`: read-only query of `pendingRewards(account)`. -/
def YieldFarmingClient.get_pending_rewards (self : YieldFarmingClient) (account : Address)
    (resp : Except RpcError (List Token)) :
    List RpcRequest × Except ClientError U256 :=
  self.contract.query "pendingRewards" [Token.address account] none Options.default none resp

/-- `get_total_value_locked()`: read-only query of `totalValueLocked()`. -/
def YieldFarmingClient.get_total_value_locked (self : YieldFarmingClient)
    (resp : Except RpcError (List Token)) :
    List RpcRequest × Except ClientError U256 :=
  self.contract.query "totalValueLocked" [] none Options.default none resp

/-- `get_current_apy()`: read-only query of `getCurrentAPY()`. -/
def YieldFarmingClient.get_current_apy (self : YieldFarmingClient)
    (resp : Except RpcError (List Token)) :
    List RpcRequest × Except ClientError U256 :=
  self.contract.query "getCurrentAPY" [] none Options.default none resp

/-- `wait_for_transaction(tx_hash)`: one receipt fetch; the source returns
the receipt when present and otherwise builds the boxed error string
"Transaction receipt not found" (classified under the spec's lookup stage);
a transport failure is surfaced as a lookup error with its message. -/
def YieldFarmingClient.wait_for_transaction (self : YieldFarmingClient) (tx_hash : H256)
    (resp : Except RpcError (Option TransactionReceipt)) :
    List RpcRequest × Except ClientError TransactionReceipt :=
  let fetched := Eth.transaction_receipt (Web3.eth self.web3) tx_hash resp
  (fetched.1,
    match fetched.2 with
    | Except.error e => Except.error (ClientError.lookupError e.msg)
    | Except.ok (some receipt) => Except.ok receipt
    | Except.ok none => Except.error (ClientError.lookupError "Transaction receipt not found"))

/-- Possible outcomes of a call whose source code can crash: a value, an
error result, or a process abort (the Rust `unwrap` on `None`). -/
inductive Outcome (α : Type) where
  | ok (a : α)
  | err (e : ClientError)
  | crashed (msg : String)
  deriving Repr, DecidableEq

/-- `get_latest_block()`: one latest-block fetch; an absent head or a
transport failure is an error, and a head block whose `number` field is
absent makes the source crash on `block.number.unwrap()`. -/
def YieldFarmingClient.get_latest_block (self : YieldFarmingClient)
    (resp : Except RpcError (Option Block)) : List RpcRequest × Outcome Nat :=
  let fetched := Eth.block_latest (Web3.eth self.web3) resp
  (fetched.1,
    match fetched.2 with
    | Except.error e => Outcome.err (ClientError.lookupError e.msg)
    | Except.ok none => Outcome.err (ClientError.lookupError "Latest block not found")
    | Except.ok (some b) =>
        match b.number with
        | some n => Outcome.ok n
        | none => Outcome.crashed "called Option::unwrap() on a None value")

/-- One public method call of the client, together with the RPC response its
single underlying network call receives. -/
inductive MethodCall where
  | mDeposit (amount : U256) (account : Address) (resp : Except RpcError H256)
  | mWithdraw (amount : U256) (account : Address) (resp : Except RpcError H256)
  | mClaimRewards (account : Address) (resp : Except RpcError H256)
  | mGetStakedBalance (account : Address) (resp : Except RpcError (List Token))
  | mGetPendingRewards (account : Address) (resp : Except RpcError (List Token))
  | mGetTotalValueLocked (resp : Except RpcError (List Token))
  | mGetCurrentAPY (resp : Except RpcError (List Token))
  | mWaitForTransaction (txh : H256) (resp : Except RpcError (Option TransactionReceipt))
  | mGetLatestBlock (resp : Except RpcError (Option Block))

/-- The typed result a public method call produces. -/
inductive CallOutcome where
  | txHash (r : Except ClientError H256)
  | value (r : Except ClientError U256)
  | receipt (r : Except ClientError TransactionReceipt)
  | blockNum (r : Outcome Nat)

/-- Dispatch of one public method call, with explicit state passing.  Every
method of the Rust client takes `&self`, a shared borrow of a structure with
no interior mutability, so the client state after the call is the client
state before it. -/
def YieldFarmingClient.dispatch (self : YieldFarmingClient) (m : MethodCall) :
    YieldFarmingClient × List RpcRequest × CallOutcome :=
  match m with
  | MethodCall.mDeposit a acc r =>
      (self, (self.deposit a acc r).1, CallOutcome.txHash (self.deposit a acc r).2)
  | MethodCall.mWithdraw a acc r =>
      (self, (self.withdraw a acc r).1, CallOutcome.txHash (self.withdraw a acc r).2)
  | MethodCall.mClaimRewards acc r =>
      (self, (self.claim_rewards acc r).1, CallOutcome.txHash (self.claim_rewards acc r).2)
  | MethodCall.mGetStakedBalance acc r =>
      (self, (self.get_staked_balance acc r).1,
        CallOutcome.value (self.get_staked_balance acc r).2)
  | MethodCall.mGetPendingRewards acc r =>
      (self, (self.get_pending_rewards acc r).1,
        CallOutcome.value (self.get_pending_rewards acc r).2)
  | MethodCall.mGetTotalValueLocked r =>
      (self, (self.get_total_value_locked r).1,
        CallOutcome.value (self.get_total_value_locked r).2)
  | MethodCall.mGetCurrentAPY r =>
      (self, (self.get_current_apy r).1, CallOutcome.value (self.get_current_apy r).2)
  | MethodCall.mWaitForTransaction h r =>
      (self, (self.wait_for_transaction h r).1,
        CallOutcome.receipt (self.wait_for_transaction h r).2)
  | MethodCall.mGetLatestBlock r =>
      (self, (self.get_latest_block r).1, CallOutcome.blockNum (self.get_latest_block r).2)

/-- The client state after running a sequence of public method calls. -/
def runSeq (c : YieldFarmingClient) : List MethodCall → YieldFarmingClient
  | [] => c
  | m :: ms => runSeq (c.dispatch m).1 ms

/-- The RPC endpoint URL the repository's `main` uses. -/
def sampleUrl : String := "https://mainnet.infura.io/v3/YOUR_PROJECT_ID"

/-- The contract address the repository's `main` uses. -/
def sampleAddr : Address := ⟨0x1234567890123456789012345678901234567890, by decide⟩

/-- A concrete transaction hash. -/
def sampleHash : H256 := ⟨0xabcdef, by decide⟩

/-- A concrete mined receipt for `sampleHash`. -/
def sampleReceipt : TransactionReceipt := ⟨sampleHash, some 1, some 100⟩

/-- The client produced by construction with the empty interface `[]`, as in
the repository's `main` and its test. -/
def sampleClient : YieldFarmingClient :=
  ⟨⟨⟨sampleUrl⟩⟩, ⟨⟨⟨sampleUrl⟩⟩, sampleAddr, ⟨[]⟩⟩⟩

/-- The function names of an ABI binding every function the facade calls. -/
def sampleAbiFns : List String :=
  ["deposit", "withdraw", "claimRewards", "balanceOf", "pendingRewards", "totalValueLocked",
    "getCurrentAPY"]

/-- A client whose ABI binds every function the facade names. -/
def sampleClientAbi : YieldFarmingClient :=
  ⟨⟨⟨sampleUrl⟩⟩, ⟨⟨⟨sampleUrl⟩⟩, sampleAddr, ⟨sampleAbiFns⟩⟩⟩

/-- Helper: on a well-formed endpoint URL and a parsable ABI, construction
issues no request and returns exactly the client binding the parsed ABI at
the given address. -/
theorem newClient_ok (url : String) (addr : Address) (abiText : String) (abi : ContractABI)
    (hu : Http.validUrl url = true) (habi : ContractABI.load abiText = Except.ok abi) :
    YieldFarmingClient.new url addr abiText =
      ([], Except.ok ⟨⟨⟨url⟩⟩, ⟨⟨⟨url⟩⟩, addr, abi⟩⟩) := by
  unfold YieldFarmingClient.new Http.new
  simp [hu, habi, Web3.new, Web3.eth, Contract.new]

/-- Helper: a single uint token decodes at `U256` to its value. -/
theorem detokenizeU256_uint (v : U256) : detokenizeU256 [Token.uint v] = some v := rfl

/-- C1 counterexample: on a hash with no known receipt (the node answers that
no receipt exists), `wait_for_transaction` returns an error — not the claimed
distinguished non-error not-yet-mined value. -/
theorem c1_counterexample :
    (sampleClient.wait_for_transaction sampleHash (Except.ok none)).2 =
      Except.error (ClientError.lookupError "Transaction receipt not found") := rfl

/-- C1 amended: `wait_for_transaction` performs a single receipt fetch and
returns the receipt when present; when no receipt exists yet it fails with
the error "Transaction receipt not found" rather than returning a non-error
not-yet-mined value; a transport failure fails with a lookup error carrying
the transport's message. -/
theorem c1_receipt_handling (c : YieldFarmingClient) (txh : H256)
    (resp : Except RpcError (Option TransactionReceipt)) :
    (c.wait_for_transaction txh resp).1 = [RpcRequest.getReceipt txh] ∧
    (∀ r, resp = Except.ok (some r) → (c.wait_for_transaction txh resp).2 = Except.ok r) ∧
    (resp = Except.ok none →
      (c.wait_for_transaction txh resp).2 =
        Except.error (ClientError.lookupError "Transaction receipt not found")) ∧
    (∀ e, resp = Except.error e →
      (c.wait_for_transaction txh resp).2 =
        Except.error (ClientError.lookupError e.msg)) := by
  refine ⟨rfl, ?_, ?_, ?_⟩
  · intro r hr; subst hr; rfl
  · intro hr; subst hr; rfl
  · intro e hr; subst hr; rfl

/-- C1 witness: at a concrete client, hash and present receipt, the call
returns that receipt and sent exactly the one receipt fetch. -/
theorem c1_receipt_handling_witness :
    (sampleClient.wait_for_transaction sampleHash (Except.ok (some sampleReceipt))).1 =
      [RpcRequest.getReceipt sampleHash] ∧
    (sampleClient.wait_for_transaction sampleHash (Except.ok (some sampleReceipt))).2 =
      Except.ok sampleReceipt :=
  ⟨(c1_receipt_handling sampleClient sampleHash (Except.ok (some sampleReceipt))).1,
    (c1_receipt_handling sampleClient sampleHash (Except.ok (some sampleReceipt))).2.1
      sampleReceipt rfl⟩

/-- C2: `deposit`, `withdraw` and `claim_rewards` each submit exactly one
transaction invoking the contract function of that name with exactly those
ordered arguments as the given caller, and on network acceptance return the
node's transaction hash unchanged (no waiting on mining is modelled: the
submission response is all the call consumes). -/
theorem c2_submit_shapes (c : YieldFarmingClient) (amount : U256) (account : Address)
    (resp : Except RpcError H256) (txh : H256)
    (hd : c.contract.abi.functions.contains "deposit" = true)
    (hw : c.contract.abi.functions.contains "withdraw" = true)
    (hcl : c.contract.abi.functions.contains "claimRewards" = true) :
    (c.deposit amount account resp).1 =
      [RpcRequest.submitTx c.contract.address "deposit" [Token.uint amount] account] ∧
    (c.withdraw amount account resp).1 =
      [RpcRequest.submitTx c.contract.address "withdraw" [Token.uint amount] account] ∧
    (c.claim_rewards account resp).1 =
      [RpcRequest.submitTx c.contract.address "claimRewards" [] account] ∧
    (c.deposit amount account (Except.ok txh)).2 = Except.ok txh ∧
    (c.withdraw amount account (Except.ok txh)).2 = Except.ok txh ∧
    (c.claim_rewards account (Except.ok txh)).2 = Except.ok txh := by
  simp only [List.contains, List.elem_eq_mem, decide_eq_true_eq] at hd hw hcl
  refine ⟨?_, ?_, ?_, ?_, ?_, ?_⟩ <;>
    simp [YieldFarmingClient.deposit, YieldFarmingClient.withdraw,
      YieldFarmingClient.claim_rewards, Contract.call, hd, hw, hcl]

/-- C2 witness: the concrete shapes at a client binding all three functions. -/
theorem c2_submit_shapes_witness :
    (sampleClientAbi.deposit 7 sampleAddr (Except.ok sampleHash)).1 =
      [RpcRequest.submitTx sampleClientAbi.contract.address "deposit" [Token.uint 7]
        sampleAddr] ∧
    (sampleClientAbi.withdraw 7 sampleAddr (Except.ok sampleHash)).1 =
      [RpcRequest.submitTx sampleClientAbi.contract.address "withdraw" [Token.uint 7]
        sampleAddr] ∧
    (sampleClientAbi.claim_rewards sampleAddr (Except.ok sampleHash)).1 =
      [RpcRequest.submitTx sampleClientAbi.contract.address "claimRewards" [] sampleAddr] ∧
    (sampleClientAbi.deposit 7 sampleAddr (Except.ok sampleHash)).2 = Except.ok sampleHash ∧
    (sampleClientAbi.withdraw 7 sampleAddr (Except.ok sampleHash)).2 = Except.ok sampleHash ∧
    (sampleClientAbi.claim_rewards sampleAddr (Except.ok sampleHash)).2 =
      Except.ok sampleHash :=
  c2_submit_shapes sampleClientAbi 7 sampleAddr (Except.ok sampleHash) sampleHash
    (by decide) (by decide) (by decide)

/-- C3: the four getters each issue exactly one read-only call (no
transaction submission) against `balanceOf`, `pendingRewards`,
`totalValueLocked` and `getCurrentAPY` respectively, return the decoded
`U256` on success, and fail with a query error on RPC failure or on a
response that does not decode at `U256`. -/
theorem c3_query_shapes (c : YieldFarmingClient) (account : Address)
    (resp : Except RpcError (List Token)) (v : U256) (e : RpcError) (toks : List Token)
    (hb : c.contract.abi.functions.contains "balanceOf" = true)
    (hp : c.contract.abi.functions.contains "pendingRewards" = true)
    (ht : c.contract.abi.functions.contains "totalValueLocked" = true)
    (ha : c.contract.abi.functions.contains "getCurrentAPY" = true)
    (hbad : detokenizeU256 toks = none) :
    (c.get_staked_balance account resp).1 =
      [RpcRequest.ethCall c.contract.address "balanceOf" [Token.address account] none] ∧
    (c.get_pending_rewards account resp).1 =
      [RpcRequest.ethCall c.contract.address "pendingRewards" [Token.address account] none] ∧
    (c.get_total_value_locked resp).1 =
      [RpcRequest.ethCall c.contract.address "totalValueLocked" [] none] ∧
    (c.get_current_apy resp).1 =
      [RpcRequest.ethCall c.contract.address "getCurrentAPY" [] none] ∧
    (c.get_staked_balance account (Except.ok [Token.uint v])).2 = Except.ok v ∧
    (c.get_pending_rewards account (Except.ok [Token.uint v])).2 = Except.ok v ∧
    (c.get_total_value_locked (Except.ok [Token.uint v])).2 = Except.ok v ∧
    (c.get_current_apy (Except.ok [Token.uint v])).2 = Except.ok v ∧
    (c.get_staked_balance account (Except.error e)).2 =
      Except.error (ClientError.queryError e.msg) ∧
    (c.get_pending_rewards account (Except.error e)).2 =
      Except.error (ClientError.queryError e.msg) ∧
    (c.get_total_value_locked (Except.error e)).2 =
      Except.error (ClientError.queryError e.msg) ∧
    (c.get_current_apy (Except.error e)).2 =
      Except.error (ClientError.queryError e.msg) ∧
    (c.get_staked_balance account (Except.ok toks)).2 =
      Except.error (ClientError.queryError "decode mismatch") ∧
    (c.get_pending_rewards account (Except.ok toks)).2 =
      Except.error (ClientError.queryError "decode mismatch") ∧
    (c.get_total_value_locked (Except.ok toks)).2 =
      Except.error (ClientError.queryError "decode mismatch") ∧
    (c.get_current_apy (Except.ok toks)).2 =
      Except.error (ClientError.queryError "decode mismatch") := by
  simp only [List.contains, List.elem_eq_mem, decide_eq_true_eq] at hb hp ht ha
  refine ⟨?_, ?_, ?_, ?_, ?_, ?_, ?_, ?_, ?_, ?_, ?_, ?_, ?_, ?_, ?_, ?_⟩ <;>
    simp [YieldFarmingClient.get_staked_balance, YieldFarmingClient.get_pending_rewards,
      YieldFarmingClient.get_total_value_locked, YieldFarmingClient.get_current_apy,
      Contract.query, detokenizeU256_uint, hb, hp, ht, ha, hbad]

/-- C3 witness: the concrete query shape and decoded result at a client
binding all four getters, with the empty token list as an undecodable
response. -/
theorem c3_query_shapes_witness :
    (sampleClientAbi.get_staked_balance sampleAddr (Except.ok [Token.uint 9])).1 =
      [RpcRequest.ethCall sampleClientAbi.contract.address "balanceOf"
        [Token.address sampleAddr] none] ∧
    (sampleClientAbi.get_staked_balance sampleAddr (Except.ok [Token.uint 9])).2 =
      Except.ok 9 ∧
    (sampleClientAbi.get_current_apy (Except.ok [])).2 =
      Except.error (ClientError.queryError "decode mismatch") := by
  have h := c3_query_shapes sampleClientAbi sampleAddr (Except.ok [Token.uint 9]) 9
    ⟨"rpc down"⟩ [] (by decide) (by decide) (by decide) (by decide) rfl
  exact ⟨h.1, h.2.2.2.2.1, h.2.2.2.2.2.2.2.2.2.2.2.2.2.2.2⟩

/-- C4: construction issues no RPC request at all; when the ABI bytes do not
parse it fails with a configuration error; and on a valid triple (well-formed
endpoint URL, any address, parsable ABI) it succeeds, returning the client
whose binding is exactly the parsed ABI at the given address. -/
theorem c4_construction (url : String) (addr : Address) (abiText : String) :
    (YieldFarmingClient.new url addr abiText).1 = [] ∧
    ((∃ e, ContractABI.load abiText = Except.error e) →
      ∃ msg, (YieldFarmingClient.new url addr abiText).2 =
        Except.error (ClientError.configurationError msg)) ∧
    (Http.validUrl url = true → ∀ abi, ContractABI.load abiText = Except.ok abi →
      (YieldFarmingClient.new url addr abiText).2 =
        Except.ok ⟨⟨⟨url⟩⟩, ⟨⟨⟨url⟩⟩, addr, abi⟩⟩) := by
  refine ⟨?_, ?_, ?_⟩
  · unfold YieldFarmingClient.new Http.new
    by_cases hu : Http.validUrl url = true
    · simp only [hu, if_true, reduceIte]
      cases ContractABI.load abiText <;> simp
    · simp [hu]
  · rintro ⟨e, he⟩
    unfold YieldFarmingClient.new Http.new
    by_cases hu : Http.validUrl url = true
    · simp [hu, he]
    · simp [hu]
  · intro hu abi habi
    rw [newClient_ok url addr abiText abi hu habi]

/-- C4 witness: a malformed ABI byte sequence fails with a configuration
error without any request, and the valid triple (the repository's URL and
address, the empty ABI `[]`) constructs successfully without any request. -/
theorem c4_construction_witness :
    (YieldFarmingClient.new sampleUrl sampleAddr "nonsense").1 = [] ∧
    (∃ msg, (YieldFarmingClient.new sampleUrl sampleAddr "nonsense").2 =
      Except.error (ClientError.configurationError msg)) ∧
    (YieldFarmingClient.new sampleUrl sampleAddr "[]").1 = [] ∧
    (YieldFarmingClient.new sampleUrl sampleAddr "[]").2 = Except.ok sampleClient := by
  have hbad := c4_construction sampleUrl sampleAddr "nonsense"
  have hok := c4_construction sampleUrl sampleAddr "[]"
  exact ⟨hbad.1, hbad.2.1 ⟨"invalid ABI", rfl⟩, hok.1, hok.2.2 (by decide) ⟨[]⟩ rfl⟩

/-- C5: with the empty interface `[]` and any syntactically valid endpoint
and address, construction succeeds, and on the resulting client every named
contract call — the three state-mutating ones and the four getters — fails
with a function-not-found invocation or query error, issuing no request and
producing a value rather than crashing. -/
theorem c5_empty_abi (url : String) (addr account : Address) (amount : U256)
    (rh : Except RpcError H256) (rq : Except RpcError (List Token))
    (hu : Http.validUrl url = true) :
    ∃ c : YieldFarmingClient,
      (YieldFarmingClient.new url addr "[]").2 = Except.ok c ∧
      c.contract.abi = ⟨[]⟩ ∧
      c.deposit amount account rh =
        ([], Except.error (ClientError.invocationError "function deposit not found in ABI")) ∧
      c.withdraw amount account rh =
        ([], Except.error (ClientError.invocationError "function withdraw not found in ABI")) ∧
      c.claim_rewards account rh =
        ([], Except.error
          (ClientError.invocationError "function claimRewards not found in ABI")) ∧
      c.get_staked_balance account rq =
        ([], Except.error (ClientError.queryError "function balanceOf not found in ABI")) ∧
      c.get_pending_rewards account rq =
        ([], Except.error
          (ClientError.queryError "function pendingRewards not found in ABI")) ∧
      c.get_total_value_locked rq =
        ([], Except.error
          (ClientError.queryError "function totalValueLocked not found in ABI")) ∧
      c.get_current_apy rq =
        ([], Except.error
          (ClientError.queryError "function getCurrentAPY not found in ABI")) := by
  refine ⟨⟨⟨⟨url⟩⟩, ⟨⟨⟨url⟩⟩, addr, ⟨[]⟩⟩⟩, ?_, rfl, ?_, ?_, ?_, ?_, ?_, ?_, ?_⟩
  · rw [newClient_ok url addr "[]" ⟨[]⟩ hu rfl]
  all_goals
    simp [YieldFarmingClient.deposit, YieldFarmingClient.withdraw,
      YieldFarmingClient.claim_rewards, YieldFarmingClient.get_staked_balance,
      YieldFarmingClient.get_pending_rewards, YieldFarmingClient.get_total_value_locked,
      YieldFarmingClient.get_current_apy, Contract.call, Contract.query]

/-- C5 witness: the concrete instance at the repository's URL and address. -/
theorem c5_empty_abi_witness :
    ∃ c : YieldFarmingClient,
      (YieldFarmingClient.new sampleUrl sampleAddr "[]").2 = Except.ok c ∧
      c.contract.abi = ⟨[]⟩ ∧
      c.deposit 1 sampleAddr (Except.ok sampleHash) =
        ([], Except.error (ClientError.invocationError "function deposit not found in ABI")) ∧
      c.withdraw 1 sampleAddr (Except.ok sampleHash) =
        ([], Except.error (ClientError.invocationError "function withdraw not found in ABI")) ∧
      c.claim_rewards sampleAddr (Except.ok sampleHash) =
        ([], Except.error
          (ClientError.invocationError "function claimRewards not found in ABI")) ∧
      c.get_staked_balance sampleAddr (Except.ok []) =
        ([], Except.error (ClientError.queryError "function balanceOf not found in ABI")) ∧
      c.get_pending_rewards sampleAddr (Except.ok []) =
        ([], Except.error
          (ClientError.queryError "function pendingRewards not found in ABI")) ∧
      c.get_total_value_locked (Except.ok []) =
        ([], Except.error
          (ClientError.queryError "function totalValueLocked not found in ABI")) ∧
      c.get_current_apy (Except.ok []) =
        ([], Except.error
          (ClientError.queryError "function getCurrentAPY not found in ABI")) :=
  c5_empty_abi sampleUrl sampleAddr sampleAddr 1 (Except.ok sampleHash) (Except.ok [])
    (by decide)

/-- C6: `get_latest_block` issues exactly one latest-block fetch; it returns
`n` exactly when the node reports a head block carrying number `n`; it fails
exactly when the node reports no head block or the transport call fails, and
every such failure is a lookup error. -/
theorem c6_latest_block (c : YieldFarmingClient) (resp : Except RpcError (Option Block)) :
    (c.get_latest_block resp).1 = [RpcRequest.getBlock] ∧
    (∀ n, resp = Except.ok (some ⟨some n⟩) → (c.get_latest_block resp).2 = Outcome.ok n) ∧
    (∀ n, (c.get_latest_block resp).2 = Outcome.ok n → resp = Except.ok (some ⟨some n⟩)) ∧
    ((∃ e, (c.get_latest_block resp).2 = Outcome.err e) ↔
      (resp = Except.ok none ∨ ∃ te, resp = Except.error te)) ∧
    (∀ e, (c.get_latest_block resp).2 = Outcome.err e →
      ∃ msg, e = ClientError.lookupError msg) := by
  refine ⟨rfl, ?_, ?_, ?_, ?_⟩
  · intro n hr; subst hr; rfl
  · intro n hn
    rcases resp with e | ob
    · simp [YieldFarmingClient.get_latest_block, Eth.block_latest, Web3.eth] at hn
    · rcases ob with _ | b
      · simp [YieldFarmingClient.get_latest_block, Eth.block_latest, Web3.eth] at hn
      · rcases b with ⟨_ | bn⟩
        · simp [YieldFarmingClient.get_latest_block, Eth.block_latest, Web3.eth] at hn
        · simp [YieldFarmingClient.get_latest_block, Eth.block_latest, Web3.eth] at hn
          subst hn; rfl
  · constructor
    · rintro ⟨e, he⟩
      rcases resp with te | ob
      · exact Or.inr ⟨te, rfl⟩
      · rcases ob with _ | b
        · exact Or.inl rfl
        · rcases b with ⟨_ | bn⟩ <;>
            simp [YieldFarmingClient.get_latest_block, Eth.block_latest, Web3.eth] at he
    · rintro (hr | ⟨te, hr⟩) <;> subst hr
      · exact ⟨ClientError.lookupError "Latest block not found", rfl⟩
      · exact ⟨ClientError.lookupError te.msg, rfl⟩
  · intro e he
    rcases resp with te | ob
    · simp [YieldFarmingClient.get_latest_block, Eth.block_latest, Web3.eth] at he
      exact ⟨te.msg, he.symm⟩
    · rcases ob with _ | b
      · simp [YieldFarmingClient.get_latest_block, Eth.block_latest, Web3.eth] at he
        exact ⟨"Latest block not found", he.symm⟩
      · rcases b with ⟨_ | bn⟩ <;>
          simp [YieldFarmingClient.get_latest_block, Eth.block_latest, Web3.eth] at he

/-- C6 witness: at a head block numbered 42 the call returns 42 with exactly
one fetch, and on a transport failure it fails with a lookup error. -/
theorem c6_latest_block_witness :
    (sampleClient.get_latest_block (Except.ok (some ⟨some 42⟩))).1 =
      [RpcRequest.getBlock] ∧
    (sampleClient.get_latest_block (Except.ok (some ⟨some 42⟩))).2 = Outcome.ok 42 ∧
    (∃ e, (sampleClient.get_latest_block (Except.error ⟨"rpc down"⟩)).2 = Outcome.err e) :=
  ⟨(c6_latest_block sampleClient (Except.ok (some ⟨some 42⟩))).1,
    (c6_latest_block sampleClient (Except.ok (some ⟨some 42⟩))).2.1 42 rfl,
    ((c6_latest_block sampleClient (Except.error ⟨"rpc down"⟩)).2.2.2.1).mpr
      (Or.inr ⟨⟨"rpc down"⟩, rfl⟩)⟩

/-- C7 counterexample: amounts are `U256` values, which are bounded below
`2 ^ 256`: the unsigned integer `2 ^ 256` has no representation, so the
client does not accept arbitrarily large amounts. -/
theorem c7_counterexample : ¬ ∃ u : U256, u.val = 2 ^ 256 := by
  rintro ⟨u, hu⟩
  exact absurd hu (Nat.ne_of_lt u.isLt)

/-- C7 amended: amounts are 256-bit unsigned integers: every unsigned
integer below `2 ^ 256` is representable as a `U256` and is accepted and
forwarded unchanged by `deposit`; no bound tighter than `2 ^ 256` is
enforced. -/
theorem c7_amounts_256bit (n : Nat) (c : YieldFarmingClient) (account : Address)
    (resp : Except RpcError H256) (h : n < 2 ^ 256)
    (hd : c.contract.abi.functions.contains "deposit" = true) :
    ∃ u : U256, u.val = n ∧
      (c.deposit u account resp).1 =
        [RpcRequest.submitTx c.contract.address "deposit" [Token.uint u] account] := by
  simp only [List.contains, List.elem_eq_mem, decide_eq_true_eq] at hd
  refine ⟨⟨n, h⟩, rfl, ?_⟩
  simp [YieldFarmingClient.deposit, Contract.call, hd]

/-- C7 witness: the largest 256-bit amount is representable and `deposit`
forwards it unchanged. -/
theorem c7_amounts_256bit_witness :
    ∃ u : U256, u.val = 2 ^ 256 - 1 ∧
      (sampleClientAbi.deposit u sampleAddr (Except.ok sampleHash)).1 =
        [RpcRequest.submitTx sampleClientAbi.contract.address "deposit" [Token.uint u]
          sampleAddr] :=
  c7_amounts_256bit (2 ^ 256 - 1) sampleClientAbi sampleAddr (Except.ok sampleHash)
    (by decide) (by decide)

/-- C8: a constructed client is immutable and stateless: dispatching any
public method call leaves the client unchanged, any sequence of calls leaves
it unchanged, and the contract binding every call observes — address and
parsed ABI — is the one fixed at construction. -/
theorem c8_immutable (url : String) (addr : Address) (abiText : String)
    (c : YieldFarmingClient) (ms : List MethodCall) (m : MethodCall)
    (hc : (YieldFarmingClient.new url addr abiText).2 = Except.ok c) :
    (c.dispatch m).1 = c ∧
    runSeq c ms = c ∧
    c.contract.address = addr ∧
    (∃ abi, ContractABI.load abiText = Except.ok abi ∧ c.contract.abi = abi) := by
  have hdisp : ∀ (d : YieldFarmingClient) (mc : MethodCall), (d.dispatch mc).1 = d := by
    intro d mc; cases mc <;> rfl
  have hrun : ∀ (l : List MethodCall) (d : YieldFarmingClient), runSeq d l = d := by
    intro l
    induction l with
    | nil => intro d; rfl
    | cons m0 ms0 ih => intro d; rw [runSeq, hdisp]; exact ih d
  refine ⟨hdisp c m, hrun ms c, ?_, ?_⟩
  all_goals
    unfold YieldFarmingClient.new Http.new at hc
    by_cases hu : Http.validUrl url = true
  · simp only [hu, if_true, reduceIte] at hc
    cases habi : ContractABI.load abiText <;> rw [habi] at hc <;>
      simp [Web3.new, Web3.eth, Contract.new] at hc
    subst hc; rfl
  · simp [hu] at hc
  · simp only [hu, if_true, reduceIte] at hc
    cases habi : ContractABI.load abiText <;> rw [habi] at hc <;>
      simp [Web3.new, Web3.eth, Contract.new] at hc
    subst hc
    exact ⟨_, rfl, rfl⟩
  · simp [hu] at hc

/-- C8 witness: at the concretely constructed client, one dispatched call and
a two-call sequence leave the client unchanged, and its binding is the
construction-time address and parsed ABI. -/
theorem c8_immutable_witness :
    (sampleClient.dispatch (MethodCall.mGetLatestBlock (Except.ok (some ⟨some 5⟩)))).1 =
      sampleClient ∧
    runSeq sampleClient
      [MethodCall.mDeposit 1 sampleAddr (Except.ok sampleHash),
        MethodCall.mGetTotalValueLocked (Except.ok [Token.uint 2])] = sampleClient ∧
    sampleClient.contract.address = sampleAddr ∧
    (∃ abi, ContractABI.load "[]" = Except.ok abi ∧ sampleClient.contract.abi = abi) := by
  have h := c8_immutable sampleUrl sampleAddr "[]" sampleClient
    [MethodCall.mDeposit 1 sampleAddr (Except.ok sampleHash),
      MethodCall.mGetTotalValueLocked (Except.ok [Token.uint 2])]
    (MethodCall.mGetLatestBlock (Except.ok (some ⟨some 5⟩))) rfl
  exact h

/-- C9: every transport failure is surfaced to the caller as a typed failure
whose kind identifies the failing operation class — invocation error for the
three state-mutating calls, query error for the four getters, lookup error
for the receipt and block fetches — carrying the transport's message
unchanged; and each failing call issued exactly one request (no retry, no
suppression). -/
theorem c9_error_surface (c : YieldFarmingClient) (amount : U256) (account : Address)
    (txh : H256) (e : RpcError)
    (hd : c.contract.abi.functions.contains "deposit" = true)
    (hw : c.contract.abi.functions.contains "withdraw" = true)
    (hcl : c.contract.abi.functions.contains "claimRewards" = true)
    (hb : c.contract.abi.functions.contains "balanceOf" = true)
    (hp : c.contract.abi.functions.contains "pendingRewards" = true)
    (ht : c.contract.abi.functions.contains "totalValueLocked" = true)
    (ha : c.contract.abi.functions.contains "getCurrentAPY" = true) :
    (c.deposit amount account (Except.error e)).1.length = 1 ∧
    (c.deposit amount account (Except.error e)).2 =
      Except.error (ClientError.invocationError e.msg) ∧
    (c.withdraw amount account (Except.error e)).1.length = 1 ∧
    (c.withdraw amount account (Except.error e)).2 =
      Except.error (ClientError.invocationError e.msg) ∧
    (c.claim_rewards account (Except.error e)).1.length = 1 ∧
    (c.claim_rewards account (Except.error e)).2 =
      Except.error (ClientError.invocationError e.msg) ∧
    (c.get_staked_balance account (Except.error e)).1.length = 1 ∧
    (c.get_staked_balance account (Except.error e)).2 =
      Except.error (ClientError.queryError e.msg) ∧
    (c.get_pending_rewards account (Except.error e)).1.length = 1 ∧
    (c.get_pending_rewards account (Except.error e)).2 =
      Except.error (ClientError.queryError e.msg) ∧
    (c.get_total_value_locked (Except.error e)).1.length = 1 ∧
    (c.get_total_value_locked (Except.error e)).2 =
      Except.error (ClientError.queryError e.msg) ∧
    (c.get_current_apy (Except.error e)).1.length = 1 ∧
    (c.get_current_apy (Except.error e)).2 =
      Except.error (ClientError.queryError e.msg) ∧
    (c.wait_for_transaction txh (Except.error e)).1.length = 1 ∧
    (c.wait_for_transaction txh (Except.error e)).2 =
      Except.error (ClientError.lookupError e.msg) ∧
    (c.get_latest_block (Except.error e)).1.length = 1 ∧
    (c.get_latest_block (Except.error e)).2 =
      Outcome.err (ClientError.lookupError e.msg) := by
  simp only [List.contains, List.elem_eq_mem, decide_eq_true_eq] at hd hw hcl hb hp ht ha
  refine ⟨?_, ?_, ?_, ?_, ?_, ?_, ?_, ?_, ?_, ?_, ?_, ?_, ?_, ?_, ?_, ?_, ?_, ?_⟩ <;>
    simp [YieldFarmingClient.deposit, YieldFarmingClient.withdraw,
      YieldFarmingClient.claim_rewards, YieldFarmingClient.get_staked_balance,
      YieldFarmingClient.get_pending_rewards, YieldFarmingClient.get_total_value_locked,
      YieldFarmingClient.get_current_apy, YieldFarmingClient.wait_for_transaction,
      YieldFarmingClient.get_latest_block, Eth.transaction_receipt, Eth.block_latest,
      Web3.eth, Contract.call, Contract.query, hd, hw, hcl, hb, hp, ht, ha]

/-- C9 witness: at a concrete transport failure, `deposit` makes exactly one
submission attempt and surfaces an invocation error with the transport's
message, and `get_latest_block` surfaces a lookup error with that message. -/
theorem c9_error_surface_witness :
    (sampleClientAbi.deposit 3 sampleAddr (Except.error ⟨"rpc down"⟩)).1.length = 1 ∧
    (sampleClientAbi.deposit 3 sampleAddr (Except.error ⟨"rpc down"⟩)).2 =
      Except.error (ClientError.invocationError "rpc down") ∧
    (sampleClientAbi.get_latest_block (Except.error ⟨"rpc down"⟩)).2 =
      Outcome.err (ClientError.lookupError "rpc down") := by
  have h := c9_error_surface sampleClientAbi 3 sampleAddr sampleHash ⟨"rpc down"⟩
    (by decide) (by decide) (by decide) (by decide) (by decide) (by decide) (by decide)
  exact ⟨h.1, h.2.1, h.2.2.2.2.2.2.2.2.2.2.2.2.2.2.2.2.2⟩

/-- C10: when the node's latest-block response carries a head block whose
number field is absent (a pending block), `get_latest_block` crashes on the
`unwrap` of that field instead of returning an error; and it returns a block
number only when the head is present and carries that number. -/
theorem c10_pending_block_crash (c : YieldFarmingClient)
    (resp : Except RpcError (Option Block)) :
    (c.get_latest_block (Except.ok (some ⟨none⟩))).2 =
      Outcome.crashed "called Option::unwrap() on a None value" ∧
    (∀ n, (c.get_latest_block resp).2 = Outcome.ok n →
      resp = Except.ok (some ⟨some n⟩)) := by
  refine ⟨rfl, ?_⟩
  intro n hn
  rcases resp with te | ob
  · simp [YieldFarmingClient.get_latest_block, Eth.block_latest, Web3.eth] at hn
  · rcases ob with _ | b
    · simp [YieldFarmingClient.get_latest_block, Eth.block_latest, Web3.eth] at hn
    · rcases b with ⟨_ | bn⟩
      · simp [YieldFarmingClient.get_latest_block, Eth.block_latest, Web3.eth] at hn
      · simp [YieldFarmingClient.get_latest_block, Eth.block_latest, Web3.eth] at hn
        subst hn; rfl

/-- C10 witness: the concrete crash on a pending head block, and a concrete
numbered head on which the implication's hypothesis is discharged by
evaluation. -/
theorem c10_pending_block_crash_witness :
    (sampleClient.get_latest_block (Except.ok (some ⟨none⟩))).2 =
      Outcome.crashed "called Option::unwrap() on a None value" ∧
    Except.ok (some (⟨some 42⟩ : Block)) =
      (Except.ok (some (⟨some 42⟩ : Block)) : Except RpcError (Option Block)) :=
  ⟨(c10_pending_block_crash sampleClient (Except.ok (some ⟨some 42⟩))).1,
    (c10_pending_block_crash sampleClient (Except.ok (some ⟨some 42⟩))).2 42 rfl⟩

end Web3Yield
